import Mathlib

/-!
Verification development for the Readwise Reader remote MCP server
(Cloudflare Worker).  The definitions below are a shallow embedding of the
TypeScript source: the OAuth `/authorize` POST handler
(`src/reader-handler.ts`) and the MCP tool handlers (`src/reader-mcp.ts`:
`listDocuments`, `createDocument`, `deleteDocument`, `tagList`).  Network
responses (upstream HTTP statuses, the sequence of upstream pages served to
the pagination loops, the current time) are explicit parameters, so every
handler becomes a pure function of its request and of the upstream
behaviour it observes.
-/

/-- JavaScript truthiness of a value that is either a string or
null/undefined (`None`): `null`, `undefined` and the empty string are
falsy, every other string is truthy. -/
def jsTruthyStr : Option String → Bool
  | none => false
  | some s => s ≠ ""

/-- JavaScript falsiness of a `nextPageCursor` field of type
`string | null`: the loop guard `!data.nextPageCursor` is true exactly when
the cursor is `null` or the empty string. -/
def cursorFalsy (c : Option String) : Bool :=
  !jsTruthyStr c

/-- `Math.round` on a rational input: round half away from zero is
`⌊x + 1/2⌋` for the non-negative values that occur here (JS rounds halves
toward positive infinity). -/
def jsRound (q : ℚ) : ℤ :=
  (q + 1 / 2).floor

/-- `FormData.get`: the value of the first entry with the given key, or
`none` (JS `null`) when the key is absent. -/
def formGet (form : List (String × String)) (key : String) : Option String :=
  (form.find? (fun kv => kv.1 == key)).map (fun kv => kv.2)

/- ------------------------------------------------------------------
OAuth authorize handler (`src/reader-handler.ts`, `app.post("/authorize")`)
------------------------------------------------------------------- -/

/-- The OAuth request info decoded from the hidden `state` form field
(`JSON.parse(atob(state))`).  Only the fields the handler reads are
modelled. -/
structure AuthRequest where
  clientId : String
  scope : String
deriving DecidableEq

/-- The custom properties bag bound to a grant (`Props` in
`src/utils.ts`). -/
structure Props where
  apiToken : String
deriving DecidableEq

/-- One invocation of `OAUTH_PROVIDER.completeAuthorization`: the argument
record the handler passes to the external OAuth provider. -/
structure Grant where
  metadataLabel : String
  props : Props
  request : AuthRequest
  scope : String
  userId : String
deriving DecidableEq

/-- The HTTP response produced by the POST `/authorize` handler:
a plain-text response with a status code (`c.text(body, status)`),
a redirect (`Response.redirect(redirectTo)`), or the rendered token-entry
HTML page (`renderTokenEntryPage`, with the approval headers attached on
the approval branch). -/
inductive HandlerResponse where
  | text (body : String) (status : Nat)
  | redirect (target : String)
  | tokenEntryPage (req : AuthRequest)
deriving DecidableEq

/-- Result of one POST `/authorize` request: the HTTP response together
with the list of `completeAuthorization` invocations the handler made
(one `Grant` per invocation, in order). -/
structure PostAuthorizeResult where
  response : HandlerResponse
  grantsCreated : List Grant
deriving DecidableEq

/-- The user id minted at grant completion:
`` `reader_user_${Date.now()}` `` where `nowMs` is the value of
`Date.now()` in milliseconds. -/
def mkUserId (nowMs : Nat) : String :=
  "reader_user_" ++ toString nowMs

/-- Shallow embedding of `app.post("/authorize")` from
`src/reader-handler.ts`.

Inputs standing for the effects the handler observes:
* `formData` — the parsed form body (`none` when `c.req.formData()` threw);
* `oauthReqInfo` — the result of `JSON.parse(atob(state))` for the form
  field `state` on the token branch;
* `verifyStatus` — the HTTP status of `GET /api/v2/auth/`;
* `userOk` — the `.ok` flag of `GET /api/v3/list/?pageCursor=`;
* `nowMs` — the value of `Date.now()` at grant completion;
* `redirectTo` — the redirect target returned by `completeAuthorization`;
* `approvalState` — `state.oauthReqInfo` as recovered by
  `parseRedirectApproval` on the approval branch (`none` when missing).

The token branch is taken exactly when the form parsed and its `apiToken`
field is truthy (`if (apiToken && formData)`). -/
def postAuthorize (formData : Option (List (String × String)))
    (oauthReqInfo : AuthRequest) (verifyStatus : Nat) (userOk : Bool)
    (nowMs : Nat) (redirectTo : String)
    (approvalState : Option AuthRequest) : PostAuthorizeResult :=
  match formData with
  | some form =>
    if jsTruthyStr (formGet form "apiToken") then
      if verifyStatus ≠ 204 then
        { response := .text "Invalid API token" 400, grantsCreated := [] }
      else if !userOk then
        { response := .text "Failed to fetch user data" 500, grantsCreated := [] }
      else
        { response := .redirect redirectTo
          grantsCreated :=
            [{ metadataLabel := "Readwise Reader User"
               props := { apiToken := (formGet form "apiToken").getD "" }
               request := oauthReqInfo
               scope := oauthReqInfo.scope
               userId := mkUserId nowMs }] }
    else
      match approvalState with
      | none => { response := .text "Invalid request" 400, grantsCreated := [] }
      | some req => { response := .tokenEntryPage req, grantsCreated := [] }
  | none =>
    match approvalState with
    | none => { response := .text "Invalid request" 400, grantsCreated := [] }
    | some req => { response := .tokenEntryPage req, grantsCreated := [] }

/- ------------------------------------------------------------------
Upstream Reader entities (`src/reader-mcp.ts` interfaces)
------------------------------------------------------------------- -/

/-- A Reader document as returned by the upstream list endpoint
(`interface ReaderDocument`).  String-or-null fields and fields the
formatter tests for truthiness are `Option String`; `tags` is modelled by
its key list (the formatter only uses `Object.keys`);
`reading_progress` is a fraction in `[0,1]`, modelled as a rational. -/
structure ReaderDocument where
  id : String
  url : String
  source_url : String
  title : String
  author : Option String
  source : String
  category : String
  location : String
  tags : Option (List String)
  site_name : String
  word_count : Int
  created_at : String
  updated_at : String
  notes : String
  published_date : Option String
  summary : Option String
  image_url : String
  parent_id : Option String
  reading_progress : ℚ
  first_opened_at : Option String
  last_opened_at : Option String
  saved_at : String
  last_moved_at : String
deriving DecidableEq

/-- One upstream response of `GET /api/v3/list/`
(`interface ReaderListResponse`). -/
structure ReaderListResponse where
  count : Nat
  nextPageCursor : Option String
  results : List ReaderDocument
deriving DecidableEq

/-- One upstream tag (`interface ReaderTag`). -/
structure ReaderTag where
  key : String
  name : String
deriving DecidableEq

/-- One upstream response of `GET /api/v3/tags/`
(`interface ReaderTagsResponse`). -/
structure ReaderTagsResponse where
  count : Nat
  nextPageCursor : Option String
  results : List ReaderTag
deriving DecidableEq

/-- The reshaped document produced by the `listDocuments` formatter
(the object literal inside `allDocuments.map`). -/
structure FormattedDocument where
  id : String
  title : String
  author : String
  url : String
  source_url : String
  category : String
  location : String
  word_count : Int
  reading_progress : ℤ
  summary : String
  saved_at : String
  tags : List String
deriving DecidableEq

/-- The per-document reshaping in `listDocuments`:

`author: doc.author || "Unknown"`,
`reading_progress: Math.round(doc.reading_progress * 100)`,
`summary: doc.summary ? doc.summary.substring(0, 100) + "..." : "No summary"`,
`tags: Object.keys(doc.tags || \x7b\x7d)`. -/
def formatDoc (doc : ReaderDocument) : FormattedDocument where
  id := doc.id
  title := doc.title
  author := if jsTruthyStr doc.author then doc.author.getD "" else "Unknown"
  url := doc.url
  source_url := doc.source_url
  category := doc.category
  location := doc.location
  word_count := doc.word_count
  reading_progress := jsRound (doc.reading_progress * 100)
  summary :=
    if jsTruthyStr doc.summary then (doc.summary.getD "").take 100 ++ "..."
    else "No summary"
  saved_at := doc.saved_at
  tags := doc.tags.getD []

/- ------------------------------------------------------------------
listDocuments (`src/reader-mcp.ts`)
------------------------------------------------------------------- -/

/-- The `pageCursor` entry added by `params.set("pageCursor", cursor)`:
present only when the loop carries a truthy cursor
(`if (nextPageCursor) params.set(...)`; the cursor variable starts
`null`). -/
def cursorParam (cursor : Option String) : List (String × String) :=
  if jsTruthyStr cursor then [("pageCursor", cursor.getD "")] else []

/-- An optional filter appended by `if (x) params.append(key, x)`. -/
def optQueryParam (key : String) (value : Option String) :
    List (String × String) :=
  if jsTruthyStr value then [(key, value.getD "")] else []

/-- The query parameters `listDocuments` builds before entering the
pagination loop: the four truthy filters in source order, then the
unconditional `params.append("withHtmlContent", "true")`. -/
def buildListParams (location category tag updatedAfter : Option String) :
    List (String × String) :=
  optQueryParam "location" location ++ optQueryParam "category" category ++
    optQueryParam "tag" tag ++ optQueryParam "updatedAfter" updatedAfter ++
    [("withHtmlContent", "true")]

/-- The `do … while (true)` pagination loop of `listDocuments`.

`pages` is the finite sequence of upstream responses, in request order;
`cursor` is the loop's `nextPageCursor` variable; `acc` is `allDocuments`
(`acc.length` equals `totalFetched`).  Each iteration records the query
parameters of the request it issues.  `fuel` bounds the number of
iterations; the result is `none` when the loop neither reaches `limit`
nor sees a falsy cursor within `fuel` iterations, or when it asks for a
page beyond the given sequence. -/
def listLoop (base : List (String × String)) (limit : Nat) :
    List ReaderDocument → Option String → List ReaderListResponse → Nat →
    Option (List ReaderDocument × List (List (String × String)))
  | _, _, _, 0 => none
  | _, _, [], _ + 1 => none
  | acc, cursor, page :: rest, fuel + 1 =>
    let req := base ++ cursorParam cursor
    let documentsToAdd := page.results.take (limit - acc.length)
    let acc2 := acc ++ documentsToAdd
    if limit ≤ acc2.length || cursorFalsy page.nextPageCursor then
      some (acc2, [req])
    else
      (listLoop base limit acc2 page.nextPageCursor rest fuel).map
        (fun out => (out.1, req :: out.2))

/-- The `listDocuments` tool handler: run the pagination loop from an
empty accumulator and a `null` cursor, then apply the per-document
formatter.  Returns the formatted documents together with the query
parameters of every upstream request issued. -/
def listDocuments (location category tag updatedAfter : Option String)
    (limit : Nat) (pages : List ReaderListResponse) (fuel : Nat) :
    Option (List FormattedDocument × List (List (String × String))) :=
  (listLoop (buildListParams location category tag updatedAfter) limit []
      none pages fuel).map
    (fun out => (out.1.map formatDoc, out.2))

/- ------------------------------------------------------------------
tagList (`src/reader-mcp.ts`)
------------------------------------------------------------------- -/

/-- The `do … while (true)` pagination loop of `tagList`.  Identical in
shape to the `listDocuments` loop, except that the query parameters are
rebuilt inside every iteration and contain only the (truthy) cursor. -/
def tagLoop (limit : Nat) :
    List ReaderTag → Option String → List ReaderTagsResponse → Nat →
    Option (List ReaderTag × List (List (String × String)))
  | _, _, _, 0 => none
  | _, _, [], _ + 1 => none
  | acc, cursor, page :: rest, fuel + 1 =>
    let req := cursorParam cursor
    let tagsToAdd := page.results.take (limit - acc.length)
    let acc2 := acc ++ tagsToAdd
    if limit ≤ acc2.length || cursorFalsy page.nextPageCursor then
      some (acc2, [req])
    else
      (tagLoop limit acc2 page.nextPageCursor rest fuel).map
        (fun out => (out.1, req :: out.2))

/-- The `tagList` tool handler: run the tag pagination loop from an empty
accumulator and a `null` cursor. -/
def tagList (limit : Nat) (pages : List ReaderTagsResponse) (fuel : Nat) :
    Option (List ReaderTag × List (List (String × String))) :=
  tagLoop limit [] none pages fuel

/- ------------------------------------------------------------------
createDocument (`src/reader-mcp.ts`)
------------------------------------------------------------------- -/

/-- A JSON value occurring in the `createDocument` payload. -/
inductive JsonValue where
  | str (s : String)
  | bool (b : Bool)
  | arr (xs : List String)
deriving DecidableEq

/-- A conditionally added payload entry (`if (x) payload.k = x`). -/
def optEntry (cond : Bool) (key : String) (value : JsonValue) :
    List (String × JsonValue) :=
  if cond then [(key, value)] else []

/-- The JSON payload `createDocument` sends to `POST /api/v3/save/`,
as the ordered list of keys the handler assigns:
`const payload = \x7b url \x7d` followed by one conditional assignment per
optional input.  String inputs are added when truthy
(`if (title) payload.title = title`), `should_clean_html` when not
`undefined` (`!== undefined`, so `false` is kept), and `tags` when not
`undefined` (a JS array, even empty, is truthy). -/
def createDocumentPayload (url : String) (html : Option String)
    (should_clean_html : Option Bool)
    (title author summary published_date image_url location category
      saved_using : Option String)
    (tags : Option (List String)) (notes : Option String) :
    List (String × JsonValue) :=
  [("url", .str url)] ++
    optEntry (jsTruthyStr html) "html" (.str (html.getD "")) ++
    optEntry should_clean_html.isSome "should_clean_html"
      (.bool (should_clean_html.getD false)) ++
    optEntry (jsTruthyStr title) "title" (.str (title.getD "")) ++
    optEntry (jsTruthyStr author) "author" (.str (author.getD "")) ++
    optEntry (jsTruthyStr summary) "summary" (.str (summary.getD "")) ++
    optEntry (jsTruthyStr published_date) "published_date"
      (.str (published_date.getD "")) ++
    optEntry (jsTruthyStr image_url) "image_url" (.str (image_url.getD "")) ++
    optEntry (jsTruthyStr location) "location" (.str (location.getD "")) ++
    optEntry (jsTruthyStr category) "category" (.str (category.getD "")) ++
    optEntry (jsTruthyStr saved_using) "saved_using"
      (.str (saved_using.getD "")) ++
    optEntry tags.isSome "tags" (.arr (tags.getD [])) ++
    optEntry (jsTruthyStr notes) "notes" (.str (notes.getD ""))

/- ------------------------------------------------------------------
deleteDocument (`src/reader-mcp.ts`)
------------------------------------------------------------------- -/

/-- The upstream HTTP response observed by a tool handler: the `.ok`
flag, the status code and the status text of the `fetch` result. -/
structure HttpResponse where
  ok : Bool
  status : Nat
  statusText : String
deriving DecidableEq

/-- The success body `deleteDocument` serializes on the happy path
(`JSON.stringify(\x7b success: true, message, documentId \x7d, null, 2)`). -/
structure DeleteSuccessBody where
  success : Bool
  message : String
  documentId : String
deriving DecidableEq

/-- The MCP tool result of `deleteDocument`: either a plain (non-error)
result carrying the serialized success body, or a result flagged
`isError: true` carrying the catch-block message. -/
inductive DeleteResult where
  | success (body : DeleteSuccessBody)
  | error (message : String)
deriving DecidableEq

/-- The `deleteDocument` tool handler: issue
`DELETE /api/v3/delete/<documentId>/`; on `!response.ok` throw
`` `API request failed: ${status} ${statusText}` ``, which the catch
block turns into an `isError` result with message
`` `Error deleting document: ${message}` ``; otherwise return the
success body echoing the caller's `documentId`. -/
def deleteDocument (documentId : String) (resp : HttpResponse) :
    DeleteResult :=
  if resp.ok then
    .success
      { success := true
        message := "Document deleted successfully"
        documentId := documentId }
  else
    .error ("Error deleting document: API request failed: " ++
      toString resp.status ++ " " ++ resp.statusText)

/- ------------------------------------------------------------------
Upstream page sequences
------------------------------------------------------------------- -/

/-- A well-formed upstream cursor chain for the list endpoint: the
sequence of pages reached by following `nextPageCursor` from the first
request — every page but the last carries a truthy cursor and the last
page carries a falsy one. -/
def isChainL : List ReaderListResponse → Bool
  | [] => false
  | [page] => cursorFalsy page.nextPageCursor
  | page :: rest => !cursorFalsy page.nextPageCursor && isChainL rest

/-- The last page of a list-endpoint page sequence carries a falsy
`nextPageCursor` (and the sequence is non-empty). -/
def lastCursorFalsyL : List ReaderListResponse → Bool
  | [] => false
  | [page] => cursorFalsy page.nextPageCursor
  | _ :: rest => lastCursorFalsyL rest

/-- The last page of a tags-endpoint page sequence carries a falsy
`nextPageCursor` (and the sequence is non-empty). -/
def lastCursorFalsyT : List ReaderTagsResponse → Bool
  | [] => false
  | [page] => cursorFalsy page.nextPageCursor
  | _ :: rest => lastCursorFalsyT rest

/-- A concrete upstream document used to instantiate the theorems. -/
def sampleDoc : ReaderDocument where
  id := "doc1"
  url := "https://read.example/d/doc1"
  source_url := "https://example.org/a"
  title := "A title"
  author := some "An author"
  source := "web"
  category := "article"
  location := "new"
  tags := some ["t1", "t2"]
  site_name := "example.org"
  word_count := 1200
  created_at := "2025-01-01T00:00:00Z"
  updated_at := "2025-01-02T00:00:00Z"
  notes := ""
  published_date := some "2024-12-31"
  summary := some "A short summary"
  image_url := "https://example.org/a.png"
  parent_id := none
  reading_progress := 734 / 1000
  first_opened_at := none
  last_opened_at := none
  saved_at := "2025-01-01T00:00:01Z"
  last_moved_at := "2025-01-01T00:00:02Z"

/- ------------------------------------------------------------------
Helper lemmas
------------------------------------------------------------------- -/

/-- `Rat.floor` agrees with the mathematical floor on `ℚ`. -/
theorem ratFloor_eq_intFloor (q : ℚ) : q.floor = ⌊q⌋ := by
  rw [Rat.floor_def', Rat.floor_def]

/-- A well-formed cursor chain in particular ends in a falsy cursor. -/
theorem isChainL_lastCursorFalsyL :
    ∀ pages : List ReaderListResponse, isChainL pages = true →
      lastCursorFalsyL pages = true := by
  intro pages
  induction pages with
  | nil => intro h; exact h
  | cons page rest ih =>
    intro h
    cases rest with
    | nil => exact h
    | cons q rest2 =>
      simp only [isChainL, Bool.and_eq_true] at h
      simpa only [lastCursorFalsyL] using ih h.2


theorem listLoop_chain_eq (base : List (String × String)) (limit : Nat) :
    ∀ (pages : List ReaderListResponse) (acc : List ReaderDocument)
      (cursor : Option String) (fuel : Nat),
      isChainL pages = true → pages.length ≤ fuel →
      ∃ reqs, listLoop base limit acc cursor pages fuel =
        some (acc ++ ((pages.map ReaderListResponse.results).flatten).take
          (limit - acc.length), reqs) := by
  intro pages
  induction pages with
  | nil => intro acc cursor fuel h; exact absurd h (by simp [isChainL])
  | cons page rest ih =>
    intro acc cursor fuel hchain hfuel
    match fuel, hfuel with
    | fuel + 1, hfuel =>
      rw [listLoop]
      by_cases hstop :
          (limit ≤ (acc ++ page.results.take (limit - acc.length)).length ∨
            cursorFalsy page.nextPageCursor = true)
      · rw [if_pos (by simpa [Bool.or_eq_true, decide_eq_true_iff] using hstop)]
        refine ⟨[base ++ cursorParam cursor], ?_⟩
        congr 3
        rcases hstop with hlim | hfalsy
        · -- stopped because the limit is reached
          rw [List.map_cons, List.flatten_cons,
            List.take_append_of_le_length]
          rw [List.length_append, List.length_take] at hlim
          omega
        · -- stopped because the cursor is falsy: this is the last page
          have hrest : rest = [] := by
            cases rest with
            | nil => rfl
            | cons q rest' =>
              simp [isChainL, hfalsy] at hchain
          subst hrest
          simp
      · rw [if_neg (by simpa [Bool.or_eq_true, decide_eq_true_iff] using hstop)]
        push_neg at hstop
        obtain ⟨hlim, hfalsy⟩ := hstop
        have hfalsy' : cursorFalsy page.nextPageCursor = false :=
          Bool.not_eq_true _ ▸ hfalsy
        have hrest : rest ≠ [] := by
          intro h
          subst h
          simp [isChainL] at hchain
          simp [hchain] at hfalsy
        have hchain' : isChainL rest = true := by
          cases rest with
          | nil => exact absurd rfl hrest
          | cons q rest' =>
            simp [isChainL] at hchain
            exact hchain.2
        rw [List.length_append, List.length_take] at hlim
        have hlen : page.results.length < limit - acc.length := by omega
        have htake : page.results.take (limit - acc.length) = page.results :=
          List.take_of_length_le (by omega)
        obtain ⟨reqs, hrec⟩ := ih (acc ++ page.results.take (limit - acc.length))
          page.nextPageCursor fuel hchain' (by simp only [List.length_cons] at hfuel; omega)
        rw [hrec]
        refine ⟨(base ++ cursorParam cursor) :: reqs, ?_⟩
        simp only [Option.map_some']
        congr 2
        rw [htake, List.map_cons, List.flatten_cons,
          List.take_append_eq_append_take,
          List.take_of_length_le (le_of_lt hlen)]
        rw [List.append_assoc]
        congr 2
        rw [List.length_append]
        congr 1
        omega

theorem listLoop_terminates (base : List (String × String)) (limit : Nat) :
    ∀ (pages : List ReaderListResponse) (acc : List ReaderDocument)
      (cursor : Option String),
      lastCursorFalsyL pages = true →
      ∃ out, ∀ fuel, pages.length ≤ fuel →
        listLoop base limit acc cursor pages fuel = some out := by
  intro pages
  induction pages with
  | nil => intro acc cursor h; exact absurd h (by simp [lastCursorFalsyL])
  | cons page rest ih =>
    intro acc cursor hlast
    by_cases hstop :
        (limit ≤ (acc ++ page.results.take (limit - acc.length)).length ∨
          cursorFalsy page.nextPageCursor = true)
    · refine ⟨(acc ++ page.results.take (limit - acc.length),
        [base ++ cursorParam cursor]), ?_⟩
      intro fuel hfuel
      match fuel, hfuel with
      | fuel + 1, hfuel =>
        rw [listLoop, if_pos (by simpa [Bool.or_eq_true, decide_eq_true_iff] using hstop)]
    · push_neg at hstop
      obtain ⟨hlim, hfalsy⟩ := hstop
      have hfalsy' : cursorFalsy page.nextPageCursor = false :=
        Bool.not_eq_true _ ▸ hfalsy
      have hrest : rest ≠ [] := by
        intro h
        subst h
        simp [lastCursorFalsyL] at hlast
        simp [hlast] at hfalsy
      have hlast' : lastCursorFalsyL rest = true := by
        cases rest with
        | nil => exact absurd rfl hrest
        | cons q rest' => simpa [lastCursorFalsyL] using hlast
      obtain ⟨out, hout⟩ := ih (acc ++ page.results.take (limit - acc.length))
        page.nextPageCursor hlast'
      refine ⟨(out.1, (base ++ cursorParam cursor) :: out.2), ?_⟩
      intro fuel hfuel
      match fuel, hfuel with
      | fuel + 1, hfuel =>
        rw [listLoop, if_neg (by
          simp only [Bool.or_eq_true, decide_eq_true_iff]
          rintro (h | h)
          exacts [by omega, hfalsy h])]
        rw [hout fuel (by simp only [List.length_cons] at hfuel; omega)]
        simp only [Option.map_some']

theorem tagLoop_terminates (limit : Nat) :
    ∀ (pages : List ReaderTagsResponse) (acc : List ReaderTag)
      (cursor : Option String),
      lastCursorFalsyT pages = true →
      ∃ out, ∀ fuel, pages.length ≤ fuel →
        tagLoop limit acc cursor pages fuel = some out := by
  intro pages
  induction pages with
  | nil => intro acc cursor h; exact absurd h (by simp [lastCursorFalsyT])
  | cons page rest ih =>
    intro acc cursor hlast
    by_cases hstop :
        (limit ≤ (acc ++ page.results.take (limit - acc.length)).length ∨
          cursorFalsy page.nextPageCursor = true)
    · refine ⟨(acc ++ page.results.take (limit - acc.length),
        [cursorParam cursor]), ?_⟩
      intro fuel hfuel
      match fuel, hfuel with
      | fuel + 1, hfuel =>
        rw [tagLoop, if_pos (by simpa [Bool.or_eq_true, decide_eq_true_iff] using hstop)]
    · push_neg at hstop
      obtain ⟨hlim, hfalsy⟩ := hstop
      have hfalsy' : cursorFalsy page.nextPageCursor = false :=
        Bool.not_eq_true _ ▸ hfalsy
      have hrest : rest ≠ [] := by
        intro h
        subst h
        simp [lastCursorFalsyT] at hlast
        simp [hlast] at hfalsy
      have hlast' : lastCursorFalsyT rest = true := by
        cases rest with
        | nil => exact absurd rfl hrest
        | cons q rest' => simpa [lastCursorFalsyT] using hlast
      obtain ⟨out, hout⟩ := ih (acc ++ page.results.take (limit - acc.length))
        page.nextPageCursor hlast'
      refine ⟨(out.1, cursorParam cursor :: out.2), ?_⟩
      intro fuel hfuel
      match fuel, hfuel with
      | fuel + 1, hfuel =>
        rw [tagLoop, if_neg (by
          simp only [Bool.or_eq_true, decide_eq_true_iff]
          rintro (h | h)
          exacts [by omega, hfalsy h])]
        rw [hout fuel (by simp only [List.length_cons] at hfuel; omega)]
        simp only [Option.map_some']

theorem listLoop_requests (base : List (String × String)) (limit : Nat) :
    ∀ (fuel : Nat) (pages : List ReaderListResponse)
      (acc : List ReaderDocument) (cursor : Option String)
      (out : List ReaderDocument × List (List (String × String))),
      listLoop base limit acc cursor pages fuel = some out →
      ∀ r ∈ out.2, ∃ c, r = base ++ cursorParam c := by
  intro fuel
  induction fuel with
  | zero =>
    intro pages acc cursor out h
    rw [listLoop] at h
    cases h
  | succ fuel ih =>
    intro pages acc cursor out h
    cases pages with
    | nil =>
      rw [listLoop] at h
      cases h
    | cons page rest =>
      rw [listLoop] at h
      by_cases hstop :
          ((decide (limit ≤ (acc ++ page.results.take (limit - acc.length)).length) ||
            cursorFalsy page.nextPageCursor) = true)
      · rw [if_pos hstop] at h
        injection h with h
        subst h
        intro r hr
        simp only [List.mem_singleton] at hr
        exact ⟨cursor, hr⟩
      · rw [if_neg hstop] at h
        cases hrec : listLoop base limit (acc ++ page.results.take (limit - acc.length))
            page.nextPageCursor rest fuel with
        | none =>
          rw [hrec] at h
          cases h
        | some out' =>
          rw [hrec] at h
          simp only [Option.map_some'] at h
          injection h with h
          subst h
          intro r hr
          rcases List.mem_cons.mp hr with rfl | hr'
          · exact ⟨cursor, rfl⟩
          · exact ih rest _ page.nextPageCursor out' hrec r hr'

/- ------------------------------------------------------------------
Concrete data for the witnesses
------------------------------------------------------------------- -/

def docNoSummary : ReaderDocument :=
  { sampleDoc with id := "doc2", summary := none, author := none }

def docShortSummary : ReaderDocument :=
  { sampleDoc with id := "doc3", summary := some "hi" }

def pageEmptyLast : ReaderListResponse :=
  { count := 0, nextPageCursor := none, results := [] }

def tagPageLast : ReaderTagsResponse :=
  { count := 1, nextPageCursor := none, results := [{ key := "k1", name := "n1" }] }

def pageShortSummary : ReaderListResponse :=
  { count := 1, nextPageCursor := none, results := [docShortSummary] }

/- ------------------------------------------------------------------
Claims
------------------------------------------------------------------- -/

/-- C1: on POST `/authorize` with a form whose `apiToken` field is
non-empty, an upstream verification status of 204 lets the handler proceed
past token verification (to the user-data fetch, hence either the
500 response or the final redirect), while any other status yields
HTTP 400 with body "Invalid API token" and no `completeAuthorization`
call. -/
theorem authorize_token_verification (form : List (String × String))
    (oauthReqInfo : AuthRequest) (verifyStatus : Nat) (userOk : Bool)
    (nowMs : Nat) (redirectTo : String) (approvalState : Option AuthRequest)
    (htoken : jsTruthyStr (formGet form "apiToken") = true) :
    (verifyStatus = 204 →
      (postAuthorize (some form) oauthReqInfo verifyStatus userOk nowMs
          redirectTo approvalState).response =
        HandlerResponse.text "Failed to fetch user data" 500 ∨
      (postAuthorize (some form) oauthReqInfo verifyStatus userOk nowMs
          redirectTo approvalState).response =
        HandlerResponse.redirect redirectTo) ∧
    (verifyStatus ≠ 204 →
      postAuthorize (some form) oauthReqInfo verifyStatus userOk nowMs
          redirectTo approvalState =
        { response := HandlerResponse.text "Invalid API token" 400
          grantsCreated := [] }) := by
  constructor
  · intro h204
    cases userOk with
    | false => exact Or.inl (by simp [postAuthorize, htoken, h204])
    | true => exact Or.inr (by simp [postAuthorize, htoken, h204])
  · intro hne
    simp [postAuthorize, htoken, hne]

/-- C1 witness. -/
theorem authorize_token_verification_witness :
    jsTruthyStr (formGet [("apiToken", "readwise_tok"), ("state", "sA")]
      "apiToken") = true ∧
    postAuthorize (some [("apiToken", "readwise_tok"), ("state", "sA")])
        { clientId := "client1", scope := "mcp" } 401 true 5 "https://cb" none =
      { response := HandlerResponse.text "Invalid API token" 400
        grantsCreated := [] } :=
  ⟨by decide,
    (authorize_token_verification _ _ 401 true 5 "https://cb" none
      (by decide)).2 (by decide)⟩

/-- C2: the POST `/authorize` handler calls `completeAuthorization` at
most once per request, only when the verification status is 204 and the
user-data fetch succeeded; and on a failed user-data fetch after a 204 it
answers HTTP 500 "Failed to fetch user data" with no grant created. -/
theorem authorize_no_partial_grant (formData : Option (List (String × String)))
    (oauthReqInfo : AuthRequest) (verifyStatus : Nat) (userOk : Bool)
    (nowMs : Nat) (redirectTo : String) (approvalState : Option AuthRequest) :
    ((postAuthorize formData oauthReqInfo verifyStatus userOk nowMs
        redirectTo approvalState).grantsCreated.length ≤ 1) ∧
    ((postAuthorize formData oauthReqInfo verifyStatus userOk nowMs
        redirectTo approvalState).grantsCreated ≠ [] →
      verifyStatus = 204 ∧ userOk = true) ∧
    (∀ form, formData = some form →
      jsTruthyStr (formGet form "apiToken") = true →
      verifyStatus = 204 → userOk = false →
      postAuthorize formData oauthReqInfo verifyStatus userOk nowMs
          redirectTo approvalState =
        { response := HandlerResponse.text "Failed to fetch user data" 500
          grantsCreated := [] }) := by
  rcases formData with _ | form
  · rcases approvalState with _ | req <;> simp [postAuthorize]
  · cases ht : jsTruthyStr (formGet form "apiToken") with
    | false => rcases approvalState with _ | req <;> simp [postAuthorize, ht]
    | true =>
      by_cases h204 : verifyStatus = 204
      · cases userOk with
        | false => simp [postAuthorize, ht, h204]
        | true => simp [postAuthorize, ht, h204]
      · simp [postAuthorize, ht, h204]

/-- C2 witness. -/
theorem authorize_no_partial_grant_witness :
    jsTruthyStr (formGet [("apiToken", "readwise_tok2")] "apiToken") = true ∧
    postAuthorize (some [("apiToken", "readwise_tok2")])
        { clientId := "client2", scope := "mcp" } 204 false 7 "https://cb2" none =
      { response := HandlerResponse.text "Failed to fetch user data" 500
        grantsCreated := [] } :=
  ⟨by decide,
    (authorize_no_partial_grant (some [("apiToken", "readwise_tok2")])
        { clientId := "client2", scope := "mcp" } 204 false 7 "https://cb2"
        none).2.2 _ rfl (by decide) rfl rfl⟩

set_option maxRecDepth 10000 in
/-- C5 at its failing input: two token submissions, with different API
tokens and different client requests, whose `completeAuthorization` calls
both run with `Date.now() = 1700000000000`, receive the same
`userId` "reader_user_1700000000000" — user id generation is not unique
for verifications completed in the same millisecond. -/
theorem userId_collision :
    (postAuthorize (some [("apiToken", "readwise_tokenA"), ("state", "sA")])
        { clientId := "clientA", scope := "mcp" } 204 true 1700000000000
        "https://a.example/cb" none).grantsCreated.map
        (fun g => g.userId) = ["reader_user_1700000000000"] ∧
    (postAuthorize (some [("apiToken", "readwise_tokenB"), ("state", "sB")])
        { clientId := "clientB", scope := "mcp" } 204 true 1700000000000
        "https://b.example/cb" none).grantsCreated.map
        (fun g => g.userId) = ["reader_user_1700000000000"] ∧
    (postAuthorize (some [("apiToken", "readwise_tokenA"), ("state", "sA")])
        { clientId := "clientA", scope := "mcp" } 204 true 1700000000000
        "https://a.example/cb" none).grantsCreated.map
        (fun g => g.props.apiToken) ≠
      (postAuthorize (some [("apiToken", "readwise_tokenB"), ("state", "sB")])
          { clientId := "clientB", scope := "mcp" } 204 true 1700000000000
          "https://b.example/cb" none).grantsCreated.map
        (fun g => g.props.apiToken) := by
  decide

/-- C3: over any upstream cursor chain and any limit in 1..100,
`listDocuments` returns at most `limit` documents, and the returned
documents are exactly the concatenation of the pages in request order
truncated to `limit` (only the final contributing page is cut short),
each passed through the per-document formatter. -/
theorem listDocuments_limit_and_order
    (location category tag updatedAfter : Option String) (limit : Nat)
    (pages : List ReaderListResponse) (h1 : 1 ≤ limit) (h2 : limit ≤ 100)
    (hchain : isChainL pages = true) :
    ∃ out, (∀ fuel, pages.length ≤ fuel →
        listDocuments location category tag updatedAfter limit pages fuel =
          some out) ∧
      out.1.length ≤ limit ∧
      out.1 = (((pages.map ReaderListResponse.results).flatten).take
        limit).map formatDoc := by
  obtain ⟨lout, hlout⟩ :=
    listLoop_terminates (buildListParams location category tag updatedAfter)
      limit pages [] none (isChainL_lastCursorFalsyL pages hchain)
  obtain ⟨reqs, hreqs⟩ :=
    listLoop_chain_eq (buildListParams location category tag updatedAfter)
      limit pages [] none pages.length hchain le_rfl
  rw [hlout pages.length le_rfl] at hreqs
  injection hreqs with hreqs
  refine ⟨(lout.1.map formatDoc, lout.2), ?_, ?_, ?_⟩
  · intro fuel hfuel
    rw [listDocuments, hlout fuel hfuel]
    rfl
  · have h := congrArg Prod.fst hreqs
    simp only [List.nil_append, List.length_nil, Nat.sub_zero] at h
    rw [h]
    simp only [List.length_map, List.length_take]
    omega
  · have h := congrArg Prod.fst hreqs
    simp only [List.nil_append, List.length_nil, Nat.sub_zero] at h
    rw [h]

/-- C3 witness. -/
theorem listDocuments_limit_and_order_witness :
    (1 ≤ 20 ∧ 20 ≤ 100 ∧ isChainL [pageEmptyLast] = true) ∧
    listDocuments none none none none 20 [pageEmptyLast] 1 ≠ none := by
  refine ⟨⟨by decide, by decide, by decide⟩, ?_⟩
  obtain ⟨out, hout, -, -⟩ :=
    listDocuments_limit_and_order none none none none 20 [pageEmptyLast]
      (by decide) (by decide) (by decide)
  rw [hout 1 (by decide)]
  simp

/-- C4: whenever the finite sequence of upstream pages ends in a page
with a falsy `nextPageCursor`, the pagination loops of `listDocuments`
and `tagList` both terminate (within one iteration per page, and with a
result independent of any larger iteration bound). -/
theorem pagination_terminates
    (location category tag updatedAfter : Option String)
    (docLimit tagLimit : Nat) (docPages : List ReaderListResponse)
    (tagPages : List ReaderTagsResponse)
    (hdoc : lastCursorFalsyL docPages = true)
    (htag : lastCursorFalsyT tagPages = true) :
    (∃ out, ∀ fuel, docPages.length ≤ fuel →
        listDocuments location category tag updatedAfter docLimit docPages
          fuel = some out) ∧
    (∃ out, ∀ fuel, tagPages.length ≤ fuel →
        tagList tagLimit tagPages fuel = some out) := by
  constructor
  · obtain ⟨out, hout⟩ :=
      listLoop_terminates (buildListParams location category tag updatedAfter)
        docLimit docPages [] none hdoc
    refine ⟨(out.1.map formatDoc, out.2), fun fuel hfuel => ?_⟩
    rw [listDocuments, hout fuel hfuel]
    rfl
  · obtain ⟨out, hout⟩ := tagLoop_terminates tagLimit tagPages [] none htag
    exact ⟨out, fun fuel hfuel => hout fuel hfuel⟩

/-- C4 witness. -/
theorem pagination_terminates_witness :
    (lastCursorFalsyL [pageEmptyLast] = true ∧
      lastCursorFalsyT [tagPageLast] = true) ∧
    listDocuments none none none none 20 [pageEmptyLast] 1 ≠ none ∧
    tagList 50 [tagPageLast] 1 ≠ none := by
  obtain ⟨⟨dout, hd⟩, ⟨tout, ht⟩⟩ :=
    pagination_terminates none none none none 20 50 [pageEmptyLast]
      [tagPageLast] (by decide) (by decide)
  refine ⟨⟨by decide, by decide⟩, ?_, ?_⟩
  · rw [hd 1 (by decide)]
    simp
  · rw [ht 1 (by decide)]
    simp

set_option maxRecDepth 10000 in
/-- C6 counterexample: a document whose summary is present and short
("hi", 2 ≤ 100 characters) is not rendered unchanged in `listDocuments`
output — the code appends the ellipsis to every non-empty summary. -/
theorem summary_short_changed :
    (listDocuments none none none none 20 [pageShortSummary] 1).map
        (fun out => out.1.map (fun d => d.summary)) = some ["hi..."] ∧
    docShortSummary.summary = some "hi" ∧
    ("hi" : String).length ≤ 100 ∧
    ("hi..." : String) ≠ "hi" := by
  refine ⟨?_, rfl, by decide, by decide⟩
  decide

/-- C6 amended: in `listDocuments` output, any document with a non-empty
summary is rendered as its first 100 characters followed by an ellipsis
(so a summary of at most 100 characters is rendered in full but still
followed by the ellipsis), and a document whose summary is absent or
empty is rendered as the literal string "No summary". -/
theorem summary_formatting (doc : ReaderDocument) :
    (jsTruthyStr doc.summary = true →
      (formatDoc doc).summary = (doc.summary.getD "").take 100 ++ "...") ∧
    (jsTruthyStr doc.summary = false →
      (formatDoc doc).summary = "No summary") := by
  constructor <;> intro h <;> simp [formatDoc, h]

set_option maxRecDepth 10000 in
/-- C6 witness. -/
theorem summary_formatting_witness :
    (formatDoc docShortSummary).summary =
        ((some "hi" : Option String).getD "").take 100 ++ "..." ∧
    (formatDoc docNoSummary).summary = "No summary" :=
  ⟨(summary_formatting docShortSummary).1 (by decide),
    (summary_formatting docNoSummary).2 (by decide)⟩

/-- Membership of a payload entry in one conditional payload entry. -/
theorem pair_mem_optEntry (p : String × JsonValue) (cond : Bool)
    (key : String) (v : JsonValue) :
    (p ∈ optEntry cond key v) ↔ (cond = true ∧ p = (key, v)) := by
  cases cond <;> simp [optEntry]

/-- C7: in the JSON payload `createDocument` sends to `POST /api/v3/save/`,
every optional parameter the caller did not supply is absent as a key
(not present with a null or empty value), while the required `url` key is
always present. -/
theorem createDocument_omits_missing_fields (url : String)
    (html : Option String) (should_clean_html : Option Bool)
    (title author summary published_date image_url location category
      saved_using : Option String)
    (tags : Option (List String)) (notes : Option String) :
    ("url" ∈ (createDocumentPayload url html should_clean_html title author
        summary published_date image_url location category saved_using tags
        notes).map Prod.fst) ∧
    (html = none → "html" ∉ (createDocumentPayload url html should_clean_html title author
        summary published_date image_url location category saved_using tags
        notes).map Prod.fst) ∧
    (should_clean_html = none → "should_clean_html" ∉ (createDocumentPayload url html should_clean_html title author
        summary published_date image_url location category saved_using tags
        notes).map Prod.fst) ∧
    (title = none → "title" ∉ (createDocumentPayload url html should_clean_html title author
        summary published_date image_url location category saved_using tags
        notes).map Prod.fst) ∧
    (author = none → "author" ∉ (createDocumentPayload url html should_clean_html title author
        summary published_date image_url location category saved_using tags
        notes).map Prod.fst) ∧
    (summary = none → "summary" ∉ (createDocumentPayload url html should_clean_html title author
        summary published_date image_url location category saved_using tags
        notes).map Prod.fst) ∧
    (published_date = none → "published_date" ∉ (createDocumentPayload url html should_clean_html title author
        summary published_date image_url location category saved_using tags
        notes).map Prod.fst) ∧
    (image_url = none → "image_url" ∉ (createDocumentPayload url html should_clean_html title author
        summary published_date image_url location category saved_using tags
        notes).map Prod.fst) ∧
    (location = none → "location" ∉ (createDocumentPayload url html should_clean_html title author
        summary published_date image_url location category saved_using tags
        notes).map Prod.fst) ∧
    (category = none → "category" ∉ (createDocumentPayload url html should_clean_html title author
        summary published_date image_url location category saved_using tags
        notes).map Prod.fst) ∧
    (saved_using = none → "saved_using" ∉ (createDocumentPayload url html should_clean_html title author
        summary published_date image_url location category saved_using tags
        notes).map Prod.fst) ∧
    (tags = none → "tags" ∉ (createDocumentPayload url html should_clean_html title author
        summary published_date image_url location category saved_using tags
        notes).map Prod.fst) ∧
    (notes = none → "notes" ∉ (createDocumentPayload url html should_clean_html title author
        summary published_date image_url location category saved_using tags
        notes).map Prod.fst) := by
  refine ⟨?_, ?_, ?_, ?_, ?_, ?_, ?_, ?_, ?_, ?_, ?_, ?_, ?_⟩
  · simp [createDocumentPayload]
  · intro h
    subst h
    simp [createDocumentPayload, pair_mem_optEntry, jsTruthyStr]
  · intro h
    subst h
    simp [createDocumentPayload, pair_mem_optEntry, jsTruthyStr]
  · intro h
    subst h
    simp [createDocumentPayload, pair_mem_optEntry, jsTruthyStr]
  · intro h
    subst h
    simp [createDocumentPayload, pair_mem_optEntry, jsTruthyStr]
  · intro h
    subst h
    simp [createDocumentPayload, pair_mem_optEntry, jsTruthyStr]
  · intro h
    subst h
    simp [createDocumentPayload, pair_mem_optEntry, jsTruthyStr]
  · intro h
    subst h
    simp [createDocumentPayload, pair_mem_optEntry, jsTruthyStr]
  · intro h
    subst h
    simp [createDocumentPayload, pair_mem_optEntry, jsTruthyStr]
  · intro h
    subst h
    simp [createDocumentPayload, pair_mem_optEntry, jsTruthyStr]
  · intro h
    subst h
    simp [createDocumentPayload, pair_mem_optEntry, jsTruthyStr]
  · intro h
    subst h
    simp [createDocumentPayload, pair_mem_optEntry, jsTruthyStr]
  · intro h
    subst h
    simp [createDocumentPayload, pair_mem_optEntry, jsTruthyStr]

/-- C7 witness. -/
theorem createDocument_omits_missing_fields_witness :
    ("url" ∈ (createDocumentPayload "https://example.org/a" none none none
        none none none none none none none none none).map Prod.fst) ∧
    ("html" ∉ (createDocumentPayload "https://example.org/a" none none none
        none none none none none none none none none).map Prod.fst) :=
  ⟨(createDocument_omits_missing_fields "https://example.org/a" none none
      none none none none none none none none none none).1,
    (createDocument_omits_missing_fields "https://example.org/a" none none
      none none none none none none none none none none).2.1 rfl⟩

/-- C8: `deleteDocument` on an upstream success response returns a
non-error result whose body has `success = true` and echoes the supplied
`documentId`; on an upstream 404 it returns a tool-level error result
whose message contains the upstream status code. -/
theorem deleteDocument_result (documentId : String) (resp : HttpResponse) :
    (resp.ok = true → deleteDocument documentId resp =
      DeleteResult.success
        { success := true
          message := "Document deleted successfully"
          documentId := documentId }) ∧
    (resp.ok = false → resp.status = 404 →
      deleteDocument documentId resp =
        DeleteResult.error ("Error deleting document: API request failed: " ++
          toString resp.status ++ " " ++ resp.statusText) ∧
      ∃ pre post,
        "Error deleting document: API request failed: " ++
            toString resp.status ++ " " ++ resp.statusText =
          pre ++ "404" ++ post) := by
  constructor
  · intro h
    simp [deleteDocument, h]
  · intro h h404
    constructor
    · simp [deleteDocument, h]
    · refine ⟨"Error deleting document: API request failed: ",
        " " ++ resp.statusText, ?_⟩
      rw [h404]
      rfl

/-- C8 witness. -/
theorem deleteDocument_result_witness :
    deleteDocument "doc9" { ok := true, status := 200, statusText := "OK" } =
      DeleteResult.success
        { success := true
          message := "Document deleted successfully"
          documentId := "doc9" } ∧
    (deleteDocument "doc9"
        { ok := false, status := 404, statusText := "Not Found" } =
      DeleteResult.error ("Error deleting document: API request failed: " ++
        toString (404 : Nat) ++ " " ++ "Not Found") ∧
      ∃ pre post,
        "Error deleting document: API request failed: " ++
            toString (404 : Nat) ++ " " ++ "Not Found" =
          pre ++ "404" ++ post) :=
  ⟨(deleteDocument_result "doc9"
      { ok := true, status := 200, statusText := "OK" }).1 rfl,
    (deleteDocument_result "doc9"
      { ok := false, status := 404, statusText := "Not Found" }).2 rfl rfl⟩

/-- C9: a document whose upstream `reading_progress` fraction is 0.734 is
rendered with `reading_progress` equal to the whole number 73 (the
fraction times 100, rounded to the nearest integer). -/
theorem reading_progress_rounding (doc : ReaderDocument)
    (h : doc.reading_progress = 734 / 1000) :
    (formatDoc doc).reading_progress = 73 := by
  show jsRound (doc.reading_progress * 100) = 73
  rw [h, jsRound, ratFloor_eq_intFloor]
  norm_num

/-- C9 witness. -/
theorem reading_progress_rounding_witness :
    sampleDoc.reading_progress = 734 / 1000 ∧
    (formatDoc sampleDoc).reading_progress = 73 :=
  ⟨rfl, reading_progress_rounding sampleDoc rfl⟩

/-- C10: every upstream list request issued by `listDocuments` carries
the query parameter `withHtmlContent=true`, for all caller inputs. -/
theorem listDocuments_withHtmlContent
    (location category tag updatedAfter : Option String) (limit : Nat)
    (pages : List ReaderListResponse) (fuel : Nat)
    (out : List FormattedDocument × List (List (String × String)))
    (h : listDocuments location category tag updatedAfter limit pages fuel =
      some out) :
    ∀ r ∈ out.2, ("withHtmlContent", "true") ∈ r := by
  rw [listDocuments] at h
  cases hrec : listLoop (buildListParams location category tag updatedAfter)
      limit [] none pages fuel with
  | none =>
    rw [hrec] at h
    cases h
  | some lout =>
    rw [hrec] at h
    simp only [Option.map_some'] at h
    injection h with h
    subst h
    intro r hr
    obtain ⟨c, rfl⟩ := listLoop_requests _ _ fuel pages [] none lout hrec r hr
    exact List.mem_append_left _ (by simp [buildListParams])

/-- C10 witness. -/
theorem listDocuments_withHtmlContent_witness :
    ("withHtmlContent", "true") ∈ [("withHtmlContent", "true")] :=
  listDocuments_withHtmlContent none none none none 20 [pageEmptyLast] 1
    ([], [[("withHtmlContent", "true")]]) (by decide)
    [("withHtmlContent", "true")] (by decide)
